import Mathlib

/-!
Shallow embedding of the trading-core of `gridtokenx-trading-api`
(`src/database.rs`), checked against the natural-language specification.

Modelling conventions:
* Rust `f64` money/energy quantities are modelled as exact rationals `ℚ`.
* `DateTime<Utc>` timestamps are modelled as `Nat`; `Utc::now()` becomes an
  explicit `now : Nat` argument.
* `Uuid` identifiers are modelled as `Nat`; the random `Uuid::new_v4()` used
  for freshly created trade/transaction identifiers is modelled as the
  constant `0` (no verified claim depends on identifier values).
* A SQL table is a `List` of rows; the `address` / `id` primary keys are
  expressed as `Nodup` hypotheses where a proof needs uniqueness.
* A fallible database operation returns `Except DatabaseError α × DbState`:
  the returned state is the committed state, and every error branch of the
  source returns before committing its transaction, so errors carry the
  unchanged input state (rollback).
* The quotation marks that the Rust `format!` strings put around the missing
  key in `NotFound` messages are omitted from the message strings.
-/

namespace GridTokenX

/-- `DatabaseError` from `src/database.rs` (the `SqlxError` / `MigrateError`
infrastructure variants, which wrap driver failures, are not modelled). -/
inductive DatabaseError where
  | NotFound (msg : String)
  | Validation (msg : String)
deriving DecidableEq, Repr

/-- The `Prosumer` row type of `src/database.rs`. -/
structure Prosumer where
  address : String
  name : String
  energy_generated : ℚ
  energy_consumed : ℚ
  grid_tokens : ℚ
  watt_tokens : ℚ
  is_active : Bool
  created_at : Nat
  updated_at : Nat
deriving DecidableEq, Repr

/-- The `Order` row type of `src/database.rs`. -/
structure Order where
  id : Nat
  prosumer_address : String
  order_type : String
  energy_amount : ℚ
  price_per_unit : ℚ
  total_price : ℚ
  status : String
  created_at : Nat
  updated_at : Nat
  expires_at : Option Nat
deriving DecidableEq, Repr

/-- The `Trade` row type of `src/database.rs`. -/
structure Trade where
  id : Nat
  buy_order_id : Nat
  sell_order_id : Nat
  buyer_address : String
  seller_address : String
  energy_amount : ℚ
  price_per_unit : ℚ
  total_price : ℚ
  status : String
  executed_at : Nat
  created_at : Nat
deriving DecidableEq, Repr

/-- The `MarketStats` result type of `src/database.rs`. -/
structure MarketStats where
  total_prosumers : Int
  total_orders : Int
  total_trades : Int
  total_energy_traded : ℚ
  total_volume : ℚ
  average_price : ℚ
  active_buy_orders : Int
  active_sell_orders : Int
deriving DecidableEq, Repr

/-- The database state: the three tables that the verified operations of
`DatabaseService` touch. -/
structure DbState where
  prosumers : List Prosumer
  orders : List Order
  trades : List Trade
deriving DecidableEq, Repr

/-- `SELECT * FROM prosumers WHERE address = $1` (first matching row;
`address` is the primary key). -/
def findProsumer (st : DbState) (addr : String) : Option Prosumer :=
  st.prosumers.find? (fun p => p.address == addr)

/-- The balance that `transfer_tokens` reads for a (valid) `token_type`:
`"grid_tokens"` selects `grid_tokens`, otherwise `watt_tokens`. -/
def tokenBalance (token_type : String) (p : Prosumer) : ℚ :=
  if token_type == "grid_tokens" then p.grid_tokens else p.watt_tokens

/-- Row effect of
`UPDATE prosumers SET <tok> = <tok> - $1, updated_at = $2 WHERE address = $3`
(the debit statement of `transfer_tokens`). -/
def debitProsumer (token_type : String) (amount : ℚ) (addr : String)
    (now : Nat) (p : Prosumer) : Prosumer :=
  if p.address == addr then
    if token_type == "grid_tokens" then
      { p with grid_tokens := p.grid_tokens - amount, updated_at := now }
    else
      { p with watt_tokens := p.watt_tokens - amount, updated_at := now }
  else p

/-- Row effect of
`UPDATE prosumers SET <tok> = <tok> + $1, updated_at = $2 WHERE address = $3`
(the credit statement of `transfer_tokens`). -/
def creditProsumer (token_type : String) (amount : ℚ) (addr : String)
    (now : Nat) (p : Prosumer) : Prosumer :=
  if p.address == addr then
    if token_type == "grid_tokens" then
      { p with grid_tokens := p.grid_tokens + amount, updated_at := now }
    else
      { p with watt_tokens := p.watt_tokens + amount, updated_at := now }
  else p

/-- `DatabaseService::transfer_tokens` (`src/database.rs:842-956`): look up the
sender row; reject an invalid `token_type`; reject when the sender's selected
balance is below `amount`; otherwise debit the sender and credit the
recipient (each `UPDATE` silently affects zero rows when no row matches its
address) and commit.  The Postgres and Sqlite arms of the source are
identical; the generated transaction id is not modelled. -/
def transferTokens (from_address to_address : String) (amount : ℚ)
    (token_type : String) (now : Nat) (st : DbState) :
    Except DatabaseError Unit × DbState :=
  match findProsumer st from_address with
  | some sender =>
      if token_type == "grid_tokens" || token_type == "watt_tokens" then
        let current_balance := tokenBalance token_type sender
        if current_balance < amount then
          (.error (.Validation "Insufficient tokens"), st)
        else
          let debited := st.prosumers.map
            (debitProsumer token_type amount from_address now)
          let credited := debited.map
            (creditProsumer token_type amount to_address now)
          (.ok (), { st with prosumers := credited })
      else
        (.error (.Validation "Invalid token type"), st)
  | none =>
      (.error (.NotFound ("Prosumer " ++ from_address ++ " not found")), st)

/-- Sum of every account's balance of one token kind. -/
def tokenTotal (token_type : String) (st : DbState) : ℚ :=
  (st.prosumers.map (tokenBalance token_type)).sum

/-- Row effect of the `UPDATE orders SET ... COALESCE ...` statement of
`DatabaseService::update_order` (`src/database.rs:513-555`): each `COALESCE`
keeps the stored value when the bound parameter is NULL, and
`total_price = COALESCE($3 * $4, total_price)` only recomputes the total when
both `energy_amount` and `price_per_unit` are supplied (a SQL product with a
NULL factor is NULL). -/
def applyOrderUpdate (status : Option String)
    (energy_amount price_per_unit : Option ℚ) (now : Nat) (o : Order) :
    Order :=
  { o with
    status := status.getD o.status
    energy_amount := energy_amount.getD o.energy_amount
    price_per_unit := price_per_unit.getD o.price_per_unit
    total_price :=
      match energy_amount, price_per_unit with
      | some e, some p => e * p
      | _, _ => o.total_price
    updated_at := now }

/-- Per-row effect of the `update_order` statement: the row whose `id` matches
the `WHERE` clause is rewritten, every other row is untouched. -/
def updateOrderRow (id : Nat) (status : Option String)
    (energy_amount price_per_unit : Option ℚ) (now : Nat) (q : Order) :
    Order :=
  if q.id == id then applyOrderUpdate status energy_amount price_per_unit now q
  else q

/-- `DatabaseService::update_order` (`src/database.rs:513-555`): update the row
whose `id` matches (the primary key) and return it; `NotFound` when no row
matches. -/
def updateOrder (id : Nat) (status : Option String)
    (energy_amount price_per_unit : Option ℚ) (now : Nat) (st : DbState) :
    Except DatabaseError Order × DbState :=
  match st.orders.find? (fun o => o.id == id) with
  | some o =>
      (.ok (applyOrderUpdate status energy_amount price_per_unit now o),
        { st with orders :=
            st.orders.map (updateOrderRow id status energy_amount price_per_unit now) })
  | none =>
      (.error (.NotFound ("Order " ++ toString id ++ " not found")), st)

/-- Per-row effect of the `cancel_order` statement: the row whose `id` matches
is set to `cancelled`, every other row is untouched. -/
def cancelOrderRow (id : Nat) (now : Nat) (q : Order) : Order :=
  if q.id == id then { q with status := "cancelled", updated_at := now } else q

/-- `DatabaseService::cancel_order` (`src/database.rs:557-590`):
`UPDATE orders SET status = 'cancelled', updated_at = $2 WHERE id = $1
RETURNING *`; `NotFound` when no row matches.  No requester, ownership or
current-status condition appears in the source. -/
def cancelOrder (id : Nat) (now : Nat) (st : DbState) :
    Except DatabaseError Order × DbState :=
  match st.orders.find? (fun o => o.id == id) with
  | some o =>
      (.ok { o with status := "cancelled", updated_at := now },
        { st with orders := st.orders.map (cancelOrderRow id now) })
  | none =>
      (.error (.NotFound ("Order " ++ toString id ++ " not found")), st)

/-- `DatabaseService::create_trade` (`src/database.rs:592-635`): plain
`INSERT ... RETURNING *` into the `trades` table. -/
def createTrade (t : Trade) (st : DbState) :
    Except DatabaseError Trade × DbState :=
  (.ok t, { st with trades := st.trades ++ [t] })

/-- `DatabaseService::execute_trade` (`src/database.rs:688-697`): first create
the trade row, then set each referenced order's status to `"completed"` with
`update_order`; each step runs in its own implicit transaction, so an error
from a later step leaves the effects of the earlier steps in place. -/
def executeTrade (t : Trade) (now : Nat) (st : DbState) :
    Except DatabaseError Trade × DbState :=
  match createTrade t st with
  | (.ok created_trade, st1) =>
      match updateOrder created_trade.buy_order_id (some "completed")
          none none now st1 with
      | (.ok _, st2) =>
          match updateOrder created_trade.sell_order_id (some "completed")
              none none now st2 with
          | (.ok _, st3) => (.ok created_trade, st3)
          | (.error e, st3) => (.error e, st3)
      | (.error e, st2) => (.error e, st2)
  | (.error e, st1) => (.error e, st1)

/-- `DatabaseService::get_market_stats` (`src/database.rs:699-740`): row
counts, plus `SUM(energy_amount)`, `SUM(total_price)` and
`AVG(price_per_unit)` over `trades WHERE status = 'completed'`, each
`COALESCE`d to `0` when there is no completed trade. -/
def getMarketStats (st : DbState) : MarketStats :=
  let completed := st.trades.filter (fun t => t.status == "completed")
  { total_prosumers := st.prosumers.length
    total_orders := st.orders.length
    total_trades := st.trades.length
    total_energy_traded := (completed.map Trade.energy_amount).sum
    total_volume := (completed.map Trade.total_price).sum
    average_price :=
      if completed.length = 0 then 0
      else (completed.map Trade.price_per_unit).sum / completed.length
    active_buy_orders := (st.orders.filter (fun o =>
      o.status == "active" && o.order_type == "buy")).length
    active_sell_orders := (st.orders.filter (fun o =>
      o.status == "active" && o.order_type == "sell")).length }

/-- The `created_at` ordering used by the matching query's `ORDER BY`. -/
def createdLe (a b : Order) : Prop :=
  a.created_at ≤ b.created_at

instance : DecidableRel createdLe := fun x y => Nat.decLe x.created_at y.created_at

/-- The trade that `match_orders` builds for one joined row: execution price is
the sell order's price, execution amount is `min` of the two amounts, total is
their product, status `"pending"`. -/
def mkMatchTrade (now : Nat) (b s : Order) : Trade :=
  { id := 0
    buy_order_id := b.id
    sell_order_id := s.id
    buyer_address := b.prosumer_address
    seller_address := s.prosumer_address
    energy_amount := min b.energy_amount s.energy_amount
    price_per_unit := s.price_per_unit
    total_price := min b.energy_amount s.energy_amount * s.price_per_unit
    status := "pending"
    executed_at := now
    created_at := now }

/-- `DatabaseService::match_orders` (`src/database.rs:958-1045`): the SQL
self-join pairs every `active` buy order with every `active` sell order whose
price it meets (`b.price_per_unit >= s.price_per_unit`), ordered by
`b.created_at, s.created_at` and capped at `LIMIT 10`; each row becomes one
pending `Trade`.  The join result's row order is realised by sorting each side
by `created_at` (SQL leaves tie order unspecified). -/
def matchOrders (now : Nat) (st : DbState) : List Trade :=
  let sorted := st.orders.insertionSort createdLe
  let buys := sorted.filter (fun o =>
    o.order_type == "buy" && o.status == "active")
  let sells := sorted.filter (fun o =>
    o.order_type == "sell" && o.status == "active")
  (buys.flatMap (fun b =>
    (sells.filter (fun s => decide (s.price_per_unit ≤ b.price_per_unit))).map
      (mkMatchTrade now b))).take 10

/-- `2^32`, the modulus of Rust `u32` arithmetic. -/
def u32Mod : Nat := 2 ^ 32

/-- The row offset `(page - 1) * limit` computed by
`DatabaseService::get_prosumers` (`src/database.rs:322-324`) on `u32`
arguments, with wrapping (release-mode) two's-complement semantics. -/
def getProsumersOffset (page limit : Nat) : Nat :=
  (page + u32Mod - 1) % u32Mod * limit % u32Mod

/-- The identical row offset computation of `DatabaseService::get_orders`
(`src/database.rs:459-461`). -/
def getOrdersOffset (page limit : Nat) : Nat :=
  (page + u32Mod - 1) % u32Mod * limit % u32Mod

/-- The identical row offset computation of `DatabaseService::get_trades`
(`src/database.rs:664-666`). -/
def getTradesOffset (page limit : Nat) : Nat :=
  (page + u32Mod - 1) % u32Mod * limit % u32Mod

end GridTokenX

deriving instance DecidableEq for Except

namespace GridTokenX

/-! ### Concrete rows and states used by counterexamples and witnesses -/

/-- A funded account. -/
def pAlice : Prosumer :=
  { address := "alice", name := "Alice", energy_generated := 0,
    energy_consumed := 0, grid_tokens := 10, watt_tokens := 3,
    is_active := true, created_at := 0, updated_at := 0 }

/-- An empty account. -/
def pBob : Prosumer :=
  { address := "bobby", name := "Bob", energy_generated := 0,
    energy_consumed := 0, grid_tokens := 0, watt_tokens := 0,
    is_active := true, created_at := 0, updated_at := 0 }

/-- Two accounts, no orders, no trades. -/
def stAB : DbState := { prosumers := [pAlice, pBob], orders := [], trades := [] }

/-- A single account; the address `"bobby"` has no row. -/
def stAliceOnly : DbState :=
  { prosumers := [pAlice], orders := [], trades := [] }

/-- An active buy order for 30 units at unit price 2. -/
def oBuy30 : Order :=
  { id := 1, prosumer_address := "alice", order_type := "buy",
    energy_amount := 30, price_per_unit := 2, total_price := 60,
    status := "active", created_at := 0, updated_at := 0, expires_at := none }

/-- An active sell order for 50 units at unit price 2. -/
def oSell50 : Order :=
  { id := 2, prosumer_address := "bobby", order_type := "sell",
    energy_amount := 50, price_per_unit := 2, total_price := 100,
    status := "active", created_at := 1, updated_at := 1, expires_at := none }

/-- The partial-fill scenario of the spec: buy 30 against sell 50 at
matching prices. -/
def stPartial : DbState := { prosumers := [], orders := [oBuy30, oSell50], trades := [] }

/-- The one candidate trade the matching pass proposes for `stPartial`. -/
def tPartial : Trade := mkMatchTrade 2 oBuy30 oSell50

/-- The sell order of `stPartial` after it has been cancelled. -/
def oSell50Cancelled : Order := { oSell50 with status := "cancelled", updated_at := 2 }

/-- The settlement-after-cancellation scenario: the buy order is still active
but the sell order was cancelled after `tPartial` was proposed. -/
def stCancelledSell : DbState :=
  { prosumers := [], orders := [oBuy30, oSell50Cancelled], trades := [] }

/-- An active buy order for 50 units at unit price 10. -/
def oBuy50 : Order :=
  { id := 1, prosumer_address := "alice", order_type := "buy",
    energy_amount := 50, price_per_unit := 10, total_price := 500,
    status := "active", created_at := 0, updated_at := 0, expires_at := none }

/-- A first active sell order for 50 units at unit price 10. -/
def oSell50a : Order :=
  { id := 2, prosumer_address := "bobby", order_type := "sell",
    energy_amount := 50, price_per_unit := 10, total_price := 500,
    status := "active", created_at := 1, updated_at := 1, expires_at := none }

/-- A second active sell order for 50 units at unit price 10. -/
def oSell50b : Order :=
  { id := 3, prosumer_address := "carol", order_type := "sell",
    energy_amount := 50, price_per_unit := 10, total_price := 500,
    status := "active", created_at := 2, updated_at := 2, expires_at := none }

/-- One buy order facing two sell orders that each alone absorb it. -/
def stOneBuyTwoSells : DbState :=
  { prosumers := [], orders := [oBuy50, oSell50a, oSell50b], trades := [] }

/-- A single active order, target of the cancellation scenario. -/
def stOneOrder : DbState := { prosumers := [], orders := [oBuy30], trades := [] }

/-- A completed trade of 30 units at unit price 2. -/
def tCompleted : Trade :=
  { id := 4, buy_order_id := 1, sell_order_id := 2, buyer_address := "alice",
    seller_address := "bobby", energy_amount := 30, price_per_unit := 2,
    total_price := 60, status := "completed", executed_at := 3, created_at := 3 }

/-- A pending trade of 50 units at unit price 4. -/
def tPending : Trade :=
  { id := 5, buy_order_id := 1, sell_order_id := 2, buyer_address := "alice",
    seller_address := "bobby", energy_amount := 50, price_per_unit := 4,
    total_price := 200, status := "pending", executed_at := 4, created_at := 4 }

/-- A state holding one completed trade, base of the statistics scenario. -/
def stStats : DbState := { prosumers := [], orders := [], trades := [tCompleted] }

/-! ### Helper lemmas -/

/-- Summing a pointwise-shifted quantity over a row list: each row satisfying
`q` contributes an extra `d1`, each row satisfying `r` an extra `d2`. -/
lemma sum_map_two_shifts (l : List Prosumer) (g h : Prosumer → ℚ)
    (q r : Prosumer → Bool) (d1 d2 : ℚ)
    (hpt : ∀ p, h p = g p + (if q p then d1 else 0) + (if r p then d2 else 0)) :
    (l.map h).sum =
      (l.map g).sum + d1 * (l.countP q : ℚ) + d2 * (l.countP r : ℚ) := by
  induction l with
  | nil => simp
  | cons p t ih =>
      simp only [List.map_cons, List.sum_cons, List.countP_cons, hpt p, ih]
      cases hq : q p <;> cases hr : r p <;> simp [hq, hr] <;> ring

/-- With `address` a primary key (`Nodup`), an address that occurs in the
table occurs in exactly one row. -/
lemma countP_addr_eq_one {l : List Prosumer} {x : String}
    (hnd : (l.map Prosumer.address).Nodup) (hx : ∃ p ∈ l, p.address = x) :
    l.countP (fun p => p.address == x) = 1 := by
  induction l with
  | nil => simp at hx
  | cons p t ih =>
      simp only [List.map_cons, List.nodup_cons] at hnd
      by_cases hpx : p.address = x
      · have ht : t.countP (fun p => p.address == x) = 0 := by
          rw [List.countP_eq_zero]
          intro q hq hqx
          exact hnd.1 (hpx ▸ (beq_iff_eq.mp hqx) ▸ List.mem_map_of_mem Prosumer.address hq)
        simp [List.countP_cons, ht, hpx]
      · rcases hx with ⟨w, hw, hwx⟩
        rcases List.mem_cons.mp hw with rfl | hwt
        · exact absurd hwx hpx
        · have := ih hnd.2 ⟨w, hwt, hwx⟩
          simp [List.countP_cons, hpx, this]

/-- With `address` a primary key, two rows of the table with the same address
are the same row. -/
lemma row_eq_of_addr_eq {l : List Prosumer} {p q : Prosumer}
    (hnd : (l.map Prosumer.address).Nodup) (hp : p ∈ l) (hq : q ∈ l)
    (h : p.address = q.address) : p = q :=
  List.inj_on_of_nodup_map hnd hp hq h

/-- Success characterization of `transferTokens`: success implies the sender
row was found, the token kind is one of the two real kinds, the sender's
balance of that kind covers the amount, and the committed state is the
debit-map followed by the credit-map. -/
lemma transferTokens_ok_state (fa ta : String) (a : ℚ) (tk : String)
    (now : Nat) (st : DbState)
    (h : (transferTokens fa ta a tk now st).1 = .ok ()) :
    ∃ sender, findProsumer st fa = some sender ∧
      (tk = "grid_tokens" ∨ tk = "watt_tokens") ∧
      a ≤ tokenBalance tk sender ∧
      (transferTokens fa ta a tk now st).2 =
        { st with prosumers := (st.prosumers.map
            (debitProsumer tk a fa now)).map (creditProsumer tk a ta now) } := by
  unfold transferTokens at h ⊢
  cases hf : findProsumer st fa with
  | none => rw [hf] at h; simp at h
  | some sender =>
      rw [hf] at h
      refine ⟨sender, rfl, ?_⟩
      by_cases htk : (tk == "grid_tokens" || tk == "watt_tokens") = true
      · by_cases hbal : tokenBalance tk sender < a
        · simp [htk, hbal] at h
        · exact ⟨by simpa using htk, not_lt.mp hbal, by simp [htk, hbal]⟩
      · simp [htk] at h

/-- Every error branch of `transferTokens` returns before the transaction
commits, so an error leaves the database state unchanged. -/
lemma transferTokens_error_state (fa ta : String) (a : ℚ) (tk : String)
    (now : Nat) (st : DbState) (e : DatabaseError)
    (h : (transferTokens fa ta a tk now st).1 = .error e) :
    (transferTokens fa ta a tk now st).2 = st := by
  unfold transferTokens at h ⊢
  cases hf : findProsumer st fa with
  | none => rfl
  | some sender =>
      rw [hf] at h
      by_cases htk : (tk == "grid_tokens" || tk == "watt_tokens") = true
      · by_cases hbal : tokenBalance tk sender < a
        · simp [htk, hbal]
        · simp [htk, hbal] at h
      · simp [htk]

/-! ### C1 -/

/-- C1 counterexample: `transfer_tokens` from `alice` to the nonexistent
address `bob` succeeds — the credit `UPDATE` silently matches zero rows — and
the total `grid_tokens` balance drops from 10 to 6, so zero-sum conservation
fails for a successful transfer. -/
theorem C1_counterexample :
    (transferTokens "alice" "bobby" 4 "grid_tokens" 1 stAliceOnly).1 = .ok () ∧
    tokenTotal "grid_tokens" stAliceOnly = 10 ∧
    tokenTotal "grid_tokens"
      (transferTokens "alice" "bobby" 4 "grid_tokens" 1 stAliceOnly).2 = 6 := by
  refine ⟨by decide, ?_, ?_⟩ <;>
    norm_num [tokenTotal, tokenBalance, transferTokens, findProsumer,
      List.find?, stAliceOnly, pAlice, debitProsumer, creditProsumer] <;>
    decide

/-- C1 (amended): for every successful `transfer_tokens` call in which the
recipient address has an account (and `address` is a primary key), the total
balance of each token kind over all accounts — and hence the sum of the two
parties' balances, every other row being untouched — is unchanged. -/
theorem C1_transfer_conserves_totals (fa ta : String) (a : ℚ) (tk : String)
    (now : Nat) (st : DbState)
    (hnd : (st.prosumers.map Prosumer.address).Nodup)
    (hto : ∃ p ∈ st.prosumers, p.address = ta)
    (hok : (transferTokens fa ta a tk now st).1 = .ok ()) :
    tokenTotal "grid_tokens" (transferTokens fa ta a tk now st).2 =
      tokenTotal "grid_tokens" st ∧
    tokenTotal "watt_tokens" (transferTokens fa ta a tk now st).2 =
      tokenTotal "watt_tokens" st := by
  obtain ⟨sender, hf, htk, _, hstate⟩ :=
    transferTokens_ok_state fa ta a tk now st hok
  have hf' : st.prosumers.find? (fun p => p.address == fa) = some sender := hf
  have hfa : ∃ p ∈ st.prosumers, p.address = fa :=
    ⟨sender, List.mem_of_find?_eq_some hf', by simpa using List.find?_some hf'⟩
  have cfa := countP_addr_eq_one hnd hfa
  have cta := countP_addr_eq_one hnd hto
  rw [hstate]
  unfold tokenTotal
  simp only [List.map_map]
  have shifted : ∀ tk', tk' = tk →
      ((st.prosumers.map (tokenBalance tk' ∘ creditProsumer tk a ta now ∘
        debitProsumer tk a fa now)).sum = (st.prosumers.map (tokenBalance tk')).sum) := by
    intro tk' htk'
    subst htk'
    rw [sum_map_two_shifts st.prosumers (tokenBalance tk')
      (tokenBalance tk' ∘ creditProsumer tk' a ta now ∘ debitProsumer tk' a fa now)
      (fun p => p.address == fa) (fun p => p.address == ta) (-a) a ?_, cfa, cta]
    · push_cast; ring
    · intro p
      rcases htk with rfl | rfl <;>
        by_cases h1 : p.address == fa <;> by_cases h2 : p.address == ta <;>
          simp [debitProsumer, creditProsumer, tokenBalance, h1, h2] <;> ring
  have untouched : ∀ tk', tk' ≠ tk → (tk' = "grid_tokens" ∨ tk' = "watt_tokens") →
      ((st.prosumers.map (tokenBalance tk' ∘ creditProsumer tk a ta now ∘
        debitProsumer tk a fa now)).sum = (st.prosumers.map (tokenBalance tk')).sum) := by
    intro tk' hne htk'
    rw [sum_map_two_shifts st.prosumers (tokenBalance tk')
      (tokenBalance tk' ∘ creditProsumer tk a ta now ∘ debitProsumer tk a fa now)
      (fun p => p.address == fa) (fun p => p.address == ta) 0 0 ?_]
    · ring
    · intro p
      rcases htk with rfl | rfl <;> rcases htk' with rfl | rfl <;>
        first
        | exact absurd rfl hne
        | (by_cases h1 : p.address == fa <;> by_cases h2 : p.address == ta <;>
            simp [debitProsumer, creditProsumer, tokenBalance, h1, h2])
  constructor
  · by_cases hg : "grid_tokens" = tk
    · exact shifted _ hg
    · exact untouched _ hg (Or.inl rfl)
  · by_cases hw : "watt_tokens" = tk
    · exact shifted _ hw
    · exact untouched _ hw (Or.inr rfl)

/-- Witness for the amended C1 at a concrete input: a transfer of 4
`grid_tokens` from `alice` to `bob` in the two-account state conserves both
token totals. -/
theorem C1_transfer_conserves_totals_witness :
    tokenTotal "grid_tokens" (transferTokens "alice" "bobby" 4 "grid_tokens" 1 stAB).2 =
      tokenTotal "grid_tokens" stAB ∧
    tokenTotal "watt_tokens" (transferTokens "alice" "bobby" 4 "grid_tokens" 1 stAB).2 =
      tokenTotal "watt_tokens" stAB :=
  C1_transfer_conserves_totals "alice" "bobby" 4 "grid_tokens" 1 stAB
    (by decide) ⟨pBob, by decide, rfl⟩ (by decide)

/-! ### C2 -/

/-- C2 counterexample: `transfer_tokens` performs no positivity check on the
amount, so transferring `-5` from `alice` (balance 10 ≥ −5 passes the
sufficiency check) to `bob` succeeds and leaves `bob`'s `grid_tokens` at −5,
although every balance was non-negative before the call. -/
theorem C2_counterexample :
    (∀ p ∈ stAB.prosumers, 0 ≤ p.grid_tokens ∧ 0 ≤ p.watt_tokens) ∧
    (transferTokens "alice" "bobby" (-5) "grid_tokens" 1 stAB).1 = .ok () ∧
    ∃ p ∈ (transferTokens "alice" "bobby" (-5) "grid_tokens" 1 stAB).2.prosumers,
      p.grid_tokens < 0 := by
  refine ⟨by decide, by decide, ?_⟩
  obtain ⟨sender, hf, htk, hbal, hstate⟩ :=
    transferTokens_ok_state "alice" "bobby" (-5) "grid_tokens" 1 stAB (by decide)
  rw [hstate]
  refine ⟨creditProsumer "grid_tokens" (-5) "bobby" 1
    (debitProsumer "grid_tokens" (-5) "alice" 1 pBob), ?_, ?_⟩
  · exact List.mem_map_of_mem _ (List.mem_map_of_mem _ (by decide))
  · have e1 : ("bobby" = "alice") = False := by simp
    norm_num [debitProsumer, creditProsumer, e1, pBob]

/-- C2 (amended): for every transfer call whose amount is non-negative (and
with `address` a primary key), every balance that is non-negative before the
call is still non-negative after it, whether the call succeeds or fails. -/
theorem C2_transfer_preserves_nonneg (fa ta : String) (a : ℚ) (tk : String)
    (now : Nat) (st : DbState)
    (hnd : (st.prosumers.map Prosumer.address).Nodup)
    (ha : 0 ≤ a)
    (hnn : ∀ p ∈ st.prosumers, 0 ≤ p.grid_tokens ∧ 0 ≤ p.watt_tokens) :
    ∀ p ∈ (transferTokens fa ta a tk now st).2.prosumers,
      0 ≤ p.grid_tokens ∧ 0 ≤ p.watt_tokens := by
  cases hr : (transferTokens fa ta a tk now st).1 with
  | error e =>
      rw [transferTokens_error_state fa ta a tk now st e hr]
      exact hnn
  | ok u =>
      cases u
      obtain ⟨sender, hf, htk, hbal, hstate⟩ :=
        transferTokens_ok_state fa ta a tk now st hr
      have hf' : st.prosumers.find? (fun p => p.address == fa) = some sender := hf
      have hsa : sender.address = fa := by simpa using List.find?_some hf'
      rw [hstate]
      intro p hp
      rw [List.map_map] at hp
      obtain ⟨q, hq, rfl⟩ := List.mem_map.mp hp
      have hg := (hnn q hq).1
      have hw := (hnn q hq).2
      have hqs : (q.address == fa) = true → q = sender := fun h1 =>
        row_eq_of_addr_eq hnd hq (List.mem_of_find?_eq_some hf')
          (by rw [beq_iff_eq.mp h1, hsa])
      rcases htk with rfl | rfl
      · simp [tokenBalance] at hbal
        by_cases h1 : (q.address == fa) = true
        · obtain rfl := hqs h1
          by_cases h2 : (q.address == ta) = true <;>
            simp [Function.comp, debitProsumer, creditProsumer, h1, h2] <;>
            constructor <;> linarith
        · by_cases h2 : (q.address == ta) = true <;>
            simp [Function.comp, debitProsumer, creditProsumer, h1, h2] <;>
            constructor <;> linarith
      · simp [tokenBalance] at hbal
        by_cases h1 : (q.address == fa) = true
        · obtain rfl := hqs h1
          by_cases h2 : (q.address == ta) = true <;>
            simp [Function.comp, debitProsumer, creditProsumer, h1, h2] <;>
            constructor <;> linarith
        · by_cases h2 : (q.address == ta) = true <;>
            simp [Function.comp, debitProsumer, creditProsumer, h1, h2] <;>
            constructor <;> linarith

/-- Witness for the amended C2 at a concrete input: after transferring 4
`grid_tokens` between the two funded accounts, the recipient's row (the
second row of the committed state) still has non-negative balances. -/
theorem C2_transfer_preserves_nonneg_witness :
    0 ≤ (creditProsumer "grid_tokens" 4 "bobby" 1
      (debitProsumer "grid_tokens" 4 "alice" 1 pBob)).grid_tokens ∧
    0 ≤ (creditProsumer "grid_tokens" 4 "bobby" 1
      (debitProsumer "grid_tokens" 4 "alice" 1 pBob)).watt_tokens :=
  C2_transfer_preserves_nonneg "alice" "bobby" 4 "grid_tokens" 1 stAB
    (by decide) (by decide) (by decide) _ (List.Mem.tail _ (List.Mem.head _))

/-! ### C3 -/

/-- C3 counterexample: a transfer of amount `0 ≤ 0` succeeds instead of
failing with `InvalidAmount`, and a transfer to the absent recipient `carol`
succeeds instead of failing with `NotFound`. -/
theorem C3_counterexample :
    (transferTokens "alice" "bobby" 0 "grid_tokens" 1 stAB).1 = .ok () ∧
    (transferTokens "alice" "carol" 4 "grid_tokens" 1 stAB).1 = .ok () :=
  ⟨by decide, by decide⟩

/-- C3 (amended): `transfer_tokens` fails with `NotFound` exactly when the
sender row is absent (the recipient is never checked), with a `Validation`
error for an invalid token kind, and with the `Insufficient tokens`
`Validation` error exactly when the sender's selected balance is below the
amount; it succeeds in every other case — including non-positive amounts,
which are never validated — and every failure leaves the state unchanged. -/
theorem C3_transfer_error_characterization (fa ta : String) (a : ℚ)
    (tk : String) (now : Nat) (st : DbState) :
    (findProsumer st fa = none →
      (transferTokens fa ta a tk now st).1 =
        .error (.NotFound ("Prosumer " ++ fa ++ " not found"))) ∧
    (∀ sender, findProsumer st fa = some sender →
      tk ≠ "grid_tokens" → tk ≠ "watt_tokens" →
      (transferTokens fa ta a tk now st).1 =
        .error (.Validation "Invalid token type")) ∧
    (∀ sender, findProsumer st fa = some sender →
      (tk = "grid_tokens" ∨ tk = "watt_tokens") →
      tokenBalance tk sender < a →
      (transferTokens fa ta a tk now st).1 =
        .error (.Validation "Insufficient tokens")) ∧
    (∀ sender, findProsumer st fa = some sender →
      (tk = "grid_tokens" ∨ tk = "watt_tokens") →
      a ≤ tokenBalance tk sender →
      (transferTokens fa ta a tk now st).1 = .ok ()) ∧
    (∀ e, (transferTokens fa ta a tk now st).1 = .error e →
      (transferTokens fa ta a tk now st).2 = st) := by
  refine ⟨?_, ?_, ?_, ?_, fun e => transferTokens_error_state fa ta a tk now st e⟩
  · intro h
    unfold transferTokens
    rw [h]
  · intro sender h hg hw
    have hb : (tk == "grid_tokens" || tk == "watt_tokens") = false := by
      simp [hg, hw]
    unfold transferTokens
    rw [h]
    simp [hb]
  · intro sender h htk hbal
    have hb : (tk == "grid_tokens" || tk == "watt_tokens") = true := by
      rcases htk with rfl | rfl <;> simp
    unfold transferTokens
    rw [h]
    simp [hb, hbal]
  · intro sender h htk hbal
    have hb : (tk == "grid_tokens" || tk == "watt_tokens") = true := by
      rcases htk with rfl | rfl <;> simp
    unfold transferTokens
    rw [h]
    simp [hb, not_lt.mpr hbal]

/-- Witness for the amended C3 at a concrete input: a transfer from the
unknown address `nobody` fails with `NotFound`. -/
theorem C3_transfer_error_characterization_witness :
    (transferTokens "nobody" "alice" 1 "grid_tokens" 0 stAB).1 =
      .error (.NotFound ("Prosumer " ++ "nobody" ++ " not found")) :=
  (C3_transfer_error_characterization "nobody" "alice" 1 "grid_tokens" 0 stAB).1
    (by decide)

/-! ### C4 -/

lemma updateOrderRow_id (id : Nat) (s : Option String) (e p : Option ℚ)
    (now : Nat) (q : Order) : (updateOrderRow id s e p now q).id = q.id := by
  unfold updateOrderRow
  split <;> rfl

lemma updateOrderRow_status_completed (id : Nat) (now : Nat) (q : Order)
    (h : (q.id == id) = true) :
    (updateOrderRow id (some "completed") none none now q).status = "completed" := by
  unfold updateOrderRow
  rw [if_pos h]
  rfl

lemma updateOrderRow_status_of_ne (id : Nat) (s : Option String) (e p : Option ℚ)
    (now : Nat) (q : Order) (h : (q.id == id) = false) :
    (updateOrderRow id s e p now q).status = q.status := by
  unfold updateOrderRow
  rw [if_neg (by simp [h])]

lemma find?_id_exists {l : List Order} {idv : Nat}
    (h : ∃ o ∈ l, o.id = idv) :
    ∃ b, l.find? (fun o => o.id == idv) = some b := by
  apply Option.isSome_iff_exists.mp
  rw [List.find?_isSome]
  obtain ⟨o, ho, hid⟩ := h
  exact ⟨o, ho, by simp [hid]⟩

/-- Evaluation of `execute_trade` when both referenced order ids exist: the
trade row is inserted unchanged and both orders are rewritten to `completed`,
regardless of their previous status or remaining amount. -/
lemma executeTrade_eval (t : Trade) (now : Nat) (st : DbState)
    (hbuy : ∃ o ∈ st.orders, o.id = t.buy_order_id)
    (hsell : ∃ o ∈ st.orders, o.id = t.sell_order_id) :
    executeTrade t now st = (.ok t,
      { st with
        trades := st.trades ++ [t]
        orders := (st.orders.map
          (updateOrderRow t.buy_order_id (some "completed") none none now)).map
          (updateOrderRow t.sell_order_id (some "completed") none none now) }) := by
  obtain ⟨b, hfb⟩ := find?_id_exists hbuy
  have hsell2 : ∃ o ∈ st.orders.map
      (updateOrderRow t.buy_order_id (some "completed") none none now),
      o.id = t.sell_order_id := by
    obtain ⟨o, ho, hid⟩ := hsell
    exact ⟨_, List.mem_map_of_mem _ ho, by rw [updateOrderRow_id]; exact hid⟩
  obtain ⟨c, hfc⟩ := find?_id_exists hsell2
  unfold executeTrade createTrade updateOrder
  simp only [hfb, hfc]

/-- C4 counterexample: the sell order of the proposed trade `tPartial` has
been cancelled, yet `execute_trade` succeeds, the cancelled order is
overwritten to `completed`, the buy order is completed, and the stored trade
keeps its `pending` status — it is never recorded as `failed`, and the
operation does not abort. -/
theorem C4_counterexample :
    (executeTrade tPartial 3 stCancelledSell).1 = .ok tPartial ∧
    (executeTrade tPartial 3 stCancelledSell).2.orders =
      [{ oBuy30 with status := "completed", updated_at := 3 },
       { oSell50Cancelled with status := "completed", updated_at := 3 }] ∧
    (executeTrade tPartial 3 stCancelledSell).2.trades = [tPartial] ∧
    tPartial.status = "pending" :=
  ⟨rfl, rfl, rfl, rfl⟩

/-- C4 (amended): `execute_trade` performs no re-validation at all: whenever
both referenced order ids exist it succeeds — whatever the orders' statuses
or remaining amounts — appending the trade unchanged (never marking it
`failed`) and unconditionally rewriting both referenced orders to
`completed`. -/
theorem C4_executeTrade_no_revalidation (t : Trade) (now : Nat) (st : DbState)
    (hbuy : ∃ o ∈ st.orders, o.id = t.buy_order_id)
    (hsell : ∃ o ∈ st.orders, o.id = t.sell_order_id) :
    (executeTrade t now st).1 = .ok t ∧
    (executeTrade t now st).2.trades = st.trades ++ [t] ∧
    ∀ o ∈ (executeTrade t now st).2.orders,
      o.id = t.buy_order_id ∨ o.id = t.sell_order_id →
      o.status = "completed" := by
  rw [executeTrade_eval t now st hbuy hsell]
  refine ⟨rfl, rfl, ?_⟩
  intro o ho hid
  simp only [List.map_map] at ho
  obtain ⟨q, hq, rfl⟩ := List.mem_map.mp ho
  simp only [Function.comp_apply] at hid ⊢
  by_cases hs : (q.id == t.sell_order_id) = true
  · exact updateOrderRow_status_completed _ _ _ (by rw [updateOrderRow_id]; exact hs)
  · have hs' : (q.id == t.sell_order_id) = false := by simpa using hs
    have hqb : (q.id == t.buy_order_id) = true := by
      rcases hid with h | h
      · rw [updateOrderRow_id, updateOrderRow_id] at h
        exact beq_iff_eq.mpr h
      · rw [updateOrderRow_id, updateOrderRow_id] at h
        exact absurd (beq_iff_eq.mpr h) (by simp [hs'])
    rw [updateOrderRow_status_of_ne _ _ _ _ _ _ (by rw [updateOrderRow_id]; exact hs')]
    exact updateOrderRow_status_completed _ _ _ hqb

/-- Witness for the amended C4 at a concrete input: settling `tPartial`
against its two live orders succeeds, records the trade, and completes both
orders. -/
theorem C4_executeTrade_no_revalidation_witness :
    (executeTrade tPartial 3 stPartial).1 = .ok tPartial ∧
    (executeTrade tPartial 3 stPartial).2.trades = stPartial.trades ++ [tPartial] ∧
    ∀ o ∈ (executeTrade tPartial 3 stPartial).2.orders,
      o.id = tPartial.buy_order_id ∨ o.id = tPartial.sell_order_id →
      o.status = "completed" :=
  C4_executeTrade_no_revalidation tPartial 3 stPartial
    ⟨oBuy30, by decide, rfl⟩ ⟨oSell50, by decide, rfl⟩

/-! ### C5 and C7: decomposition of a matching pass -/

/-- Every trade proposed by `match_orders` comes from an active buy order and
an active sell order of the state whose prices are compatible, and is exactly
the trade `mkMatchTrade` builds for that pair. -/
lemma mem_matchOrders {now : Nat} {st : DbState} {t : Trade}
    (h : t ∈ matchOrders now st) :
    ∃ b ∈ st.orders, ∃ s ∈ st.orders,
      b.order_type = "buy" ∧ b.status = "active" ∧
      s.order_type = "sell" ∧ s.status = "active" ∧
      s.price_per_unit ≤ b.price_per_unit ∧
      t = mkMatchTrade now b s := by
  unfold matchOrders at h
  have h' := List.take_subset 10 _ h
  rw [List.mem_flatMap] at h'
  obtain ⟨b, hb, ht⟩ := h'
  rw [List.mem_map] at ht
  obtain ⟨s, hs, rfl⟩ := ht
  rw [List.mem_filter] at hb hs
  obtain ⟨hb, hbp⟩ := hb
  obtain ⟨hs, hsp⟩ := hs
  rw [List.mem_filter] at hs
  obtain ⟨hs, hsq⟩ := hs
  have hbmem : b ∈ st.orders := (List.perm_insertionSort createdLe st.orders).mem_iff.mp hb
  have hsmem : s ∈ st.orders := (List.perm_insertionSort createdLe st.orders).mem_iff.mp hs
  simp only [Bool.and_eq_true, beq_iff_eq] at hbp hsq
  exact ⟨b, hbmem, s, hsmem, hbp.1, hbp.2, hsq.1, hsq.2, of_decide_eq_true hsp, rfl⟩

/-- C5 counterexample: one active buy order for 50 units faces two active
sell orders of 50 units each at a matching price; the pass proposes two
trades of 50 units both referencing the buy order, jointly committing 100
units against its 50. -/
theorem C5_counterexample :
    (matchOrders 3 stOneBuyTwoSells).length = 2 ∧
    (∀ t ∈ matchOrders 3 stOneBuyTwoSells, t.buy_order_id = oBuy50.id) ∧
    ((matchOrders 3 stOneBuyTwoSells).map Trade.energy_amount).sum = 100 ∧
    oBuy50.energy_amount = 50 := by
  have he : matchOrders 3 stOneBuyTwoSells =
      [mkMatchTrade 3 oBuy50 oSell50a, mkMatchTrade 3 oBuy50 oSell50b] := rfl
  refine ⟨by rw [he]; rfl, ?_, ?_, rfl⟩
  · intro t ht
    rw [he, List.mem_cons, List.mem_singleton] at ht
    rcases ht with rfl | rfl <;> rfl
  · rw [he]
    norm_num [mkMatchTrade, oBuy50, oSell50a, oSell50b]

/-- C5 (amended): within one pass, each proposed trade individually fits
inside the current amounts of the two orders it references, and the pass
proposes at most 10 candidates; but nothing prevents several trades of the
same pass from referencing one order with a combined amount exceeding it,
and an order fully absorbed by one candidate pair still appears in later
pairs of the same pass. -/
theorem C5_match_per_trade_bound (now : Nat) (st : DbState) :
    (matchOrders now st).length ≤ 10 ∧
    ∀ t ∈ matchOrders now st,
      (∃ b ∈ st.orders, b.id = t.buy_order_id ∧
        t.energy_amount ≤ b.energy_amount) ∧
      (∃ s ∈ st.orders, s.id = t.sell_order_id ∧
        t.energy_amount ≤ s.energy_amount) := by
  constructor
  · unfold matchOrders
    exact List.length_take_le 10 _
  · intro t ht
    obtain ⟨b, hbmem, s, hsmem, _, _, _, _, _, rfl⟩ := mem_matchOrders ht
    exact ⟨⟨b, hbmem, rfl, min_le_left _ _⟩, ⟨s, hsmem, rfl, min_le_right _ _⟩⟩

/-- Witness for the amended C5 at a concrete input: the pass over the
one-buy-two-sells book proposes at most 10 trades, and its first trade fits
inside both referenced orders. -/
theorem C5_match_per_trade_bound_witness :
    (matchOrders 3 stOneBuyTwoSells).length ≤ 10 ∧
    ((∃ b ∈ stOneBuyTwoSells.orders,
        b.id = (mkMatchTrade 3 oBuy50 oSell50a).buy_order_id ∧
        (mkMatchTrade 3 oBuy50 oSell50a).energy_amount ≤ b.energy_amount) ∧
     (∃ s ∈ stOneBuyTwoSells.orders,
        s.id = (mkMatchTrade 3 oBuy50 oSell50a).sell_order_id ∧
        (mkMatchTrade 3 oBuy50 oSell50a).energy_amount ≤ s.energy_amount)) :=
  ⟨(C5_match_per_trade_bound 3 stOneBuyTwoSells).1,
   (C5_match_per_trade_bound 3 stOneBuyTwoSells).2 _ (List.Mem.head _)⟩

/-! ### C6 -/

lemma cancelOrderRow_id (id now : Nat) (q : Order) :
    (cancelOrderRow id now q).id = q.id := by
  unfold cancelOrderRow
  split <;> rfl

lemma cancelOrderRow_status (id now : Nat) (q : Order)
    (h : (q.id == id) = true) :
    (cancelOrderRow id now q).status = "cancelled" := by
  unfold cancelOrderRow
  rw [if_pos h]

/-- C6 counterexample: `cancel_order` takes no requester and checks no
status: cancelling order 1 succeeds, and cancelling it a second time — when
its status is already `cancelled` — succeeds again instead of failing with
`InvalidState`. -/
theorem C6_counterexample :
    (cancelOrder 1 5 stOneOrder).1 =
      .ok { oBuy30 with status := "cancelled", updated_at := 5 } ∧
    (cancelOrder 1 6 (cancelOrder 1 5 stOneOrder).2).1 =
      .ok { oBuy30 with status := "cancelled", updated_at := 6 } :=
  ⟨rfl, rfl⟩

/-- C6 (amended): `cancel_order` receives only the order id — no requester,
so no `Forbidden` case exists — and fails with `NotFound` exactly when the id
is unknown; when the id exists it unconditionally sets the order's status to
`Cancelled`, succeeding whatever the current status is (a second cancellation
succeeds again rather than failing with `InvalidState`). -/
theorem C6_cancel_characterization (id now : Nat) (st : DbState) :
    ((∀ o ∈ st.orders, o.id ≠ id) →
      (cancelOrder id now st).1 =
        .error (.NotFound ("Order " ++ toString id ++ " not found")) ∧
      (cancelOrder id now st).2 = st) ∧
    ((∃ o ∈ st.orders, o.id = id) →
      (∃ o, (cancelOrder id now st).1 = .ok o ∧ o.status = "cancelled") ∧
      ∀ o ∈ (cancelOrder id now st).2.orders, o.id = id →
        o.status = "cancelled") := by
  constructor
  · intro hnone
    have hf : st.orders.find? (fun o => o.id == id) = none := by
      rw [List.find?_eq_none]
      intro o ho
      simp [hnone o ho]
    unfold cancelOrder
    rw [hf]
    exact ⟨rfl, rfl⟩
  · intro hex
    obtain ⟨b, hfb⟩ := find?_id_exists hex
    unfold cancelOrder
    rw [hfb]
    refine ⟨⟨_, rfl, rfl⟩, ?_⟩
    intro o ho hid
    obtain ⟨q, hq, rfl⟩ := List.mem_map.mp ho
    rw [cancelOrderRow_id] at hid
    exact cancelOrderRow_status _ _ _ (beq_iff_eq.mpr hid)

/-- Witness for the amended C6 at a concrete input: cancelling the existing
order 1 succeeds and leaves every row with id 1 cancelled. -/
theorem C6_cancel_characterization_witness :
    (∃ o, (cancelOrder 1 5 stOneOrder).1 = .ok o ∧ o.status = "cancelled") ∧
    ∀ o ∈ (cancelOrder 1 5 stOneOrder).2.orders, o.id = 1 →
      o.status = "cancelled" :=
  (C6_cancel_characterization 1 5 stOneOrder).2 ⟨oBuy30, by decide, rfl⟩

/-! ### C7 -/

/-- C7 (as claimed): every trade of a matching pass pairs an active buy and
an active sell order with compatible prices; its execution price is the sell
order's price, its amount is the minimum of the two amounts, its total is
amount × price, and its status is `pending`. -/
theorem C7_match_trade_shape (now : Nat) (st : DbState) :
    ∀ t ∈ matchOrders now st, ∃ b ∈ st.orders, ∃ s ∈ st.orders,
      b.order_type = "buy" ∧ b.status = "active" ∧
      s.order_type = "sell" ∧ s.status = "active" ∧
      s.price_per_unit ≤ b.price_per_unit ∧
      t.buy_order_id = b.id ∧ t.sell_order_id = s.id ∧
      t.price_per_unit = s.price_per_unit ∧
      t.energy_amount = min b.energy_amount s.energy_amount ∧
      t.total_price = t.energy_amount * t.price_per_unit ∧
      t.status = "pending" := by
  intro t ht
  obtain ⟨b, hbmem, s, hsmem, h1, h2, h3, h4, h5, rfl⟩ := mem_matchOrders ht
  exact ⟨b, hbmem, s, hsmem, h1, h2, h3, h4, h5, rfl, rfl, rfl, rfl, rfl, rfl⟩

/-- Witness for C7 at a concrete input: the single trade proposed for the
partial-fill book has the claimed shape. -/
theorem C7_match_trade_shape_witness :
    ∃ b ∈ stPartial.orders, ∃ s ∈ stPartial.orders,
      b.order_type = "buy" ∧ b.status = "active" ∧
      s.order_type = "sell" ∧ s.status = "active" ∧
      s.price_per_unit ≤ b.price_per_unit ∧
      tPartial.buy_order_id = b.id ∧ tPartial.sell_order_id = s.id ∧
      tPartial.price_per_unit = s.price_per_unit ∧
      tPartial.energy_amount = min b.energy_amount s.energy_amount ∧
      tPartial.total_price = tPartial.energy_amount * tPartial.price_per_unit ∧
      tPartial.status = "pending" :=
  C7_match_trade_shape 2 stPartial tPartial (List.Mem.head _)

/-! ### C8 -/

/-- C8 counterexample: after settling the 30-against-50 partial fill, the
sell order's status is `completed` — not still `active` — and its stored
amount is still 50, not reduced to 20. -/
theorem C8_counterexample :
    matchOrders 2 stPartial = [tPartial] ∧
    tPartial.energy_amount = 30 ∧
    ∃ o ∈ (executeTrade tPartial 3 stPartial).2.orders,
      o.id = oSell50.id ∧ o.status = "completed" ∧ o.energy_amount = 50 :=
  ⟨rfl, by decide,
   { oSell50 with status := "completed", updated_at := 3 },
   List.Mem.tail _ (List.Mem.head _), rfl, rfl, rfl⟩

/-- C8 (amended): matching the 30-unit buy against the 50-unit sell yields
exactly one trade of amount 30 and settling it marks the buy order
`completed`; but the sell order is also marked `completed` — `execute_trade`
tracks no remaining amount, so the sell order's amount stays 50 instead of
being reduced to 20 with status still `active`. -/
theorem C8_partial_fill_actual :
    matchOrders 2 stPartial = [tPartial] ∧
    tPartial.energy_amount = 30 ∧
    (executeTrade tPartial 3 stPartial).1 = .ok tPartial ∧
    (executeTrade tPartial 3 stPartial).2.trades = [tPartial] ∧
    (executeTrade tPartial 3 stPartial).2.orders =
      [{ oBuy30 with status := "completed", updated_at := 3 },
       { oSell50 with status := "completed", updated_at := 3 }] :=
  ⟨rfl, by decide, rfl, rfl, rfl⟩

/-! ### C9 -/

/-- C9 (as claimed): the market statistics' total traded energy and total
volume are exactly the sums of `energy_amount` and `total_price` over the
trades whose status is `completed`; a trade in any other status (`pending`,
`failed`) contributes nothing to either total or to the average, and the
average price is the mean of `price_per_unit` over completed trades only
(0 when there is none). -/
theorem C9_market_stats_completed_only (st : DbState) (t : Trade)
    (h : t.status ≠ "completed") :
    (getMarketStats st).total_energy_traded =
      ((st.trades.filter (fun tr => tr.status == "completed")).map
        Trade.energy_amount).sum ∧
    (getMarketStats st).total_volume =
      ((st.trades.filter (fun tr => tr.status == "completed")).map
        Trade.total_price).sum ∧
    (getMarketStats st).average_price =
      (if (st.trades.filter (fun tr => tr.status == "completed")).length = 0
        then 0
        else ((st.trades.filter (fun tr => tr.status == "completed")).map
          Trade.price_per_unit).sum /
          (st.trades.filter (fun tr => tr.status == "completed")).length) ∧
    (getMarketStats { st with trades := t :: st.trades }).total_energy_traded =
      (getMarketStats st).total_energy_traded ∧
    (getMarketStats { st with trades := t :: st.trades }).total_volume =
      (getMarketStats st).total_volume ∧
    (getMarketStats { st with trades := t :: st.trades }).average_price =
      (getMarketStats st).average_price := by
  have hfilter : (t :: st.trades).filter (fun tr => tr.status == "completed") =
      st.trades.filter (fun tr => tr.status == "completed") := by
    rw [List.filter_cons, if_neg (by simp [h])]
  refine ⟨rfl, rfl, rfl, ?_, ?_, ?_⟩ <;>
    simp only [getMarketStats, hfilter]

/-- Witness for C9 at a concrete input: adding the pending trade `tPending`
on top of the one-completed-trade state changes neither total nor the
average. -/
theorem C9_market_stats_completed_only_witness :
    (getMarketStats stStats).total_energy_traded =
      ((stStats.trades.filter (fun tr => tr.status == "completed")).map
        Trade.energy_amount).sum ∧
    (getMarketStats stStats).total_volume =
      ((stStats.trades.filter (fun tr => tr.status == "completed")).map
        Trade.total_price).sum ∧
    (getMarketStats stStats).average_price =
      (if (stStats.trades.filter (fun tr => tr.status == "completed")).length = 0
        then 0
        else ((stStats.trades.filter (fun tr => tr.status == "completed")).map
          Trade.price_per_unit).sum /
          (stStats.trades.filter (fun tr => tr.status == "completed")).length) ∧
    (getMarketStats { stStats with trades := tPending :: stStats.trades }).total_energy_traded =
      (getMarketStats stStats).total_energy_traded ∧
    (getMarketStats { stStats with trades := tPending :: stStats.trades }).total_volume =
      (getMarketStats stStats).total_volume ∧
    (getMarketStats { stStats with trades := tPending :: stStats.trades }).average_price =
      (getMarketStats stStats).average_price :=
  C9_market_stats_completed_only stStats tPending (by decide)

/-! ### C10 -/

/-- C10 (as claimed): the pagination offset of `get_prosumers`, `get_orders`
and `get_trades` is `(page - 1) * limit` in wrapping unsigned 32-bit
arithmetic; for every in-range `page ≥ 1` it equals the mathematical
`(page - 1) * limit` modulo `2^32`, and for `page = 0` the subtraction wraps
to `2^32 - 1` instead of the call being rejected. -/
theorem C10_pagination_offset (page limit : Nat) (hp : 1 ≤ page)
    (hpage : page < u32Mod) (hlimit : limit < u32Mod) :
    (getProsumersOffset page limit = (page - 1) * limit % u32Mod ∧
     getOrdersOffset page limit = (page - 1) * limit % u32Mod ∧
     getTradesOffset page limit = (page - 1) * limit % u32Mod) ∧
    (getProsumersOffset 0 limit = (u32Mod - 1) * limit % u32Mod ∧
     getOrdersOffset 0 limit = (u32Mod - 1) * limit % u32Mod ∧
     getTradesOffset 0 limit = (u32Mod - 1) * limit % u32Mod) := by
  have hpos : 0 < u32Mod := by norm_num [u32Mod]
  have core : (page + u32Mod - 1) % u32Mod * limit % u32Mod =
      (page - 1) * limit % u32Mod := by
    have h1 : page + u32Mod - 1 = (page - 1) + u32Mod := by omega
    have h2 : (page - 1) % u32Mod = page - 1 := Nat.mod_eq_of_lt (by omega)
    rw [h1, Nat.add_mod_right, h2]
  have zero : (0 + u32Mod - 1) % u32Mod * limit % u32Mod =
      (u32Mod - 1) * limit % u32Mod := by
    have h3 : (u32Mod - 1) % u32Mod = u32Mod - 1 := Nat.mod_eq_of_lt (by omega)
    rw [Nat.zero_add, h3]
  exact ⟨⟨core, core, core⟩, ⟨zero, zero, zero⟩⟩

/-- Witness for C10 at a concrete input: page 3, limit 25. -/
theorem C10_pagination_offset_witness :
    (getProsumersOffset 3 25 = (3 - 1) * 25 % u32Mod ∧
     getOrdersOffset 3 25 = (3 - 1) * 25 % u32Mod ∧
     getTradesOffset 3 25 = (3 - 1) * 25 % u32Mod) ∧
    (getProsumersOffset 0 25 = (u32Mod - 1) * 25 % u32Mod ∧
     getOrdersOffset 0 25 = (u32Mod - 1) * 25 % u32Mod ∧
     getTradesOffset 0 25 = (u32Mod - 1) * 25 % u32Mod) :=
  C10_pagination_offset 3 25 (by norm_num) (by norm_num [u32Mod])
    (by norm_num [u32Mod])

end GridTokenX
